import Mathlib

/-!
Verification development for the cpso-mcp-server orchestration core.

The Python sources are shallowly embedded as pure Lean functions:

* External collaborators (the LLM `llm.invoke`, the DuckDuckGo search, the
  ChromaDB backend, the langchain text splitter, `uuid.uuid4`, `json.loads`,
  clocks and hashes) are passed in as explicit arguments: the embedding is
  parametric in their outcomes, exactly as the code is.
* The ChromaDB collection is modelled as a list of chunk entries; `add`
  appends entries with the given ids and `get(ids=[x])` returns the entries
  whose id equals `x`, which is the documented key-value behaviour the code
  relies on.
* The mutable `GlobalState` pydantic aggregate becomes an immutable record
  that every node maps to an updated record.
-/

/-! ## state.schema -/

/-- Embeds `GlobalStateStatus` from `cpsp_protocol/state/schema.py`. -/
inductive GlobalStateStatus where
  | scouting
  | drafting
  | auditing
  | awaiting_user
  | refining
  | completed
deriving DecidableEq

/-- Embeds `UserFeedback` (timestamps come from an external clock; they are
modelled as opaque naturals). -/
structure UserFeedback where
  role : String
  kind : String
  content : String
  timestamp : Nat
deriving DecidableEq

/-- Embeds `ScoutInstruction`; the `Literal` types of the pydantic schema
become plain strings, with the allowed values tracked in hypotheses. -/
structure ScoutInstruction where
  id : String
  role : String
  topic : String
  status : String
deriving DecidableEq

/-- Embeds `RawIntelligence`. -/
structure RawIntelligence where
  source_scout_id : String
  content_summary : String
  artifact_ref_id : String
deriving DecidableEq

/-- Embeds `InputAttachment`. -/
structure InputAttachment where
  file_name : String
  file_type : String
  content_summary : String
  full_content_ref : String
  raw_text_snippet : String
deriving DecidableEq

/-- Embeds the schema's `AuditConfiguration`. -/
structure AuditConfiguration where
  strictness : String
  enable_market_data_freshness : Bool
  enable_competitor_analysis : Bool
  enable_technical_feasibility : Bool
  enable_financial_realism : Bool
  enable_visualization : Bool
  dimensions : List String
deriving DecidableEq

/-- Embeds `GlobalState` from `cpsp_protocol/state/schema.py`. -/
structure GlobalState where
  request_id : String
  status : GlobalStateStatus
  iteration_count : Nat
  user_intent : String
  user_feedback_history : List UserFeedback
  scout_instructions : List ScoutInstruction
  raw_intelligence : List RawIntelligence
  consolidated_briefing : String
  technical_correction : Option String
  strategy_draft : String
  audit_report : String
  audit_config : Option AuditConfiguration
  input_attachments : List InputAttachment
deriving DecidableEq

/-! ## tools/vector_db.py and utils/artifact.py -/

/-- One entry of the ChromaDB `artifacts` collection as `store_artifact`
creates it: the chunk id, the chunk text, and the metadata fields the code
attaches (`artifact_id`, `chunk_index`). -/
structure Chunk where
  id : String
  document : String
  artifact_id : String
  chunk_index : Nat
deriving DecidableEq

/-- The ChromaDB collection, modelled as the list of stored entries. -/
abbrev Collection := List Chunk

/-- Embeds `VectorDB.store_artifact`: the content is split by the external
`RecursiveCharacterTextSplitter` (passed in as `splitter`), an empty split is
replaced by one empty chunk, and each chunk is added under the id
`artifact_id ++ "_chunk_" ++ i`.  Embeddings only affect similarity search,
not `get`, so they are not modelled. -/
def store_artifact (col : Collection) (artifact_id : String) (content : String)
    (splitter : String → List String) : Collection :=
  let texts := splitter content
  let texts := if texts.isEmpty then [""] else texts
  col ++ texts.enum.map (fun p =>
    { id := artifact_id ++ "_chunk_" ++ toString p.1
      document := p.2
      artifact_id := artifact_id
      chunk_index := p.1 })

/-- Models `collection.get(ids=[qid])`: the stored entries whose id is `qid`. -/
def collection_get (col : Collection) (qid : String) : List Chunk :=
  col.filter (fun c => c.id == qid)

/-- Embeds `VectorDB.retrieve_artifact`: looks the bare `artifact_id` up in
the collection and returns the first hit (the code returns a dict of its id,
document and metadata; the `Chunk` record carries exactly those fields). -/
def retrieve_artifact (col : Collection) (artifact_id : String) : Option Chunk :=
  match collection_get col artifact_id with
  | [] => none
  | c :: _ => some c

/-- Embeds `ArtifactManager.create_artifact`.  The freshly generated
`uuid.uuid4` is the external argument `artifact_id`; the sha256 content hash,
source and timestamp metadata do not participate in storage keys or lookup
and are elided.  Returns the id (as the code does) and the new collection. -/
def create_artifact (col : Collection) (artifact_id : String) (content : String)
    (splitter : String → List String) : String × Collection :=
  (artifact_id, store_artifact col artifact_id content splitter)

/-- Embeds `ArtifactManager.generate_summary`: plain truncation with an
ellipsis when the content exceeds `max_length` characters. -/
def generate_summary (content : String) (max_length : Nat) : String :=
  if content.length ≤ max_length then content
  else (content.take (max_length - 3)) ++ "..."

/-! ## String containment, used by the substring-matching audit path -/

/-- Bool-valued infix test on character lists (Python's `needle in hay`). -/
def isInfixList (needle : List Char) : List Char → Bool
  | [] => needle.isEmpty
  | c :: rest => needle.isPrefixOf (c :: rest) || isInfixList needle rest

/-- Python's `needle in hay` on strings. -/
def strContains (hay needle : String) : Bool :=
  isInfixList needle.data hay.data

/-! ## nodes/auditor.py and nodes/advanced_auditor.py -/

/-- Embeds `adversarial_audit`.  The LLM's free-text report is the external
argument `report` (the prompt only feeds the external model).  The code
stores the report, then routes on substring matching: if it contains
"Status: Reject" or "Status: Conditional" the status becomes `awaiting_user`,
otherwise `completed`. -/
def adversarial_audit (s : GlobalState) (report : String) : GlobalState :=
  if strContains report "Status: Reject" || strContains report "Status: Conditional" then
    { s with audit_report := report, status := GlobalStateStatus.awaiting_user }
  else
    { s with audit_report := report, status := GlobalStateStatus.completed }

/-- Embeds `AuditFinding` from `nodes/advanced_auditor.py`. -/
structure AuditFinding where
  dimension : String
  severity : String
  description : String
  recommendation : String
  location : Option String
deriving DecidableEq

/-- Embeds `StructuredAuditReport` (the float score is an opaque integer and
the `generated_at` wall-clock timestamp is elided; neither affects control
flow). -/
structure StructuredAuditReport where
  overall_status : String
  findings : List AuditFinding
  score : Int
  summary : String
deriving DecidableEq

/-- Embeds `advanced_adversarial_audit`.  `rawOut` is the LLM output;
`parsed` is the outcome of the external `json.loads` plus pydantic
construction (`none` models a `JSONDecodeError`); `serialize` models
pydantic's `.json()`.  On a parse success the report is stored serialized and
the status is `awaiting_user` for verdicts `reject`/`conditional` and
`completed` otherwise; on a parse failure the raw output is stored and the
status is conservatively `awaiting_user`. -/
def advanced_adversarial_audit (s : GlobalState) (rawOut : String)
    (parsed : Option StructuredAuditReport)
    (serialize : StructuredAuditReport → String) : GlobalState :=
  match parsed with
  | some r =>
    if r.overall_status = "reject" ∨ r.overall_status = "conditional" then
      { s with audit_report := serialize r, status := GlobalStateStatus.awaiting_user }
    else
      { s with audit_report := serialize r, status := GlobalStateStatus.completed }
  | none =>
    { s with audit_report := rawOut, status := GlobalStateStatus.awaiting_user }

/-! ## nodes/tech.py -/

/-- The fixed fallback correction emitted at the iteration cap. -/
def max_iter_msg : String :=
  "技术修正已达到最大迭代次数(3次)。建议人工介入处理剩余问题。"

/-- Embeds `technical_review`.  `gen` is the external LLM's correction text.
The returned Bool records whether `llm.invoke` was reached (`false` on the
cap branch, which returns before any generation).  At the cap the correction
is the fixed message, the status is `awaiting_user` and the counter is left
alone; below the cap the correction is the generated text, the status is
`refining` and the counter is incremented by one. -/
def technical_review (s : GlobalState) (gen : String) : GlobalState × Bool :=
  if s.iteration_count ≥ 3 then
    ({ s with technical_correction := some max_iter_msg
              status := GlobalStateStatus.awaiting_user }, false)
  else
    ({ s with technical_correction := some gen
              status := GlobalStateStatus.refining
              iteration_count := s.iteration_count + 1 }, true)

/-! ## graph.py routing predicates -/

/-- Embeds `audit_router` from `graph.py`: substring matching on the stored
audit report decides between the correction loop and END. -/
def audit_router (s : GlobalState) : String :=
  if strContains s.audit_report "Status: Reject"
      || strContains s.audit_report "Status: Conditional" then
    "technical_review"
  else
    "END"

/-- Embeds `technical_router` from `graph.py`: at the iteration cap the loop
exits to END, otherwise it re-enters intelligence fusion. -/
def technical_router (s : GlobalState) : String :=
  if s.iteration_count ≥ 3 then "END" else "intelligence_fusion"

/-! ## state_manager.py -/

/-- Embeds `StateManager._initialize_state` for a fresh request (no restored
checkpoint). -/
def initial_state (request_id : String) : GlobalState :=
  { request_id := request_id
    status := GlobalStateStatus.scouting
    iteration_count := 0
    user_intent := ""
    user_feedback_history := []
    scout_instructions := []
    raw_intelligence := []
    consolidated_briefing := ""
    technical_correction := none
    strategy_draft := ""
    audit_report := ""
    audit_config := none
    input_attachments := [] }

/-- Embeds `StateManager.add_user_feedback`: appends the feedback entry and
unconditionally increments `iteration_count`. -/
def add_user_feedback (s : GlobalState) (feedback_type content : String)
    (timestamp : Nat) : GlobalState :=
  { s with
    user_feedback_history :=
      s.user_feedback_history ++
        [{ role := "user", kind := feedback_type, content := content
           timestamp := timestamp }]
    iteration_count := s.iteration_count + 1 }

/-! ## nodes/cpso.py -/

/-- Embeds `intent_analysis`.  The code builds a prompt, calls the LLM
(`llmResponse` is its output), and then discards the response: despite the
in-code comment promising placeholder instructions, nothing is parsed and
`scout_instructions` is never written.  The only effect is
`status := scouting`. -/
def intent_analysis (s : GlobalState) (llmResponse : String) : GlobalState :=
  { s with status := GlobalStateStatus.scouting }

/-- Embeds `strategy_generation`: stores the LLM's draft and moves to
`auditing`. -/
def strategy_generation (s : GlobalState) (draft : String) : GlobalState :=
  { s with strategy_draft := draft, status := GlobalStateStatus.auditing }

/-! ## nodes/scout.py

The dispatcher fans out one coroutine per pending instruction and joins with
`asyncio.gather(..., return_exceptions=True)`, which yields exactly one
result per task, in task-submission order.  The embedding takes one
`TaskOutcome` per task: `crashed` models a coroutine whose exception escaped
(only possible before any mutation, from the `ArtifactManager()` call);
`ran search store` models a completed coroutine with the given external
search outcome and the outcome of the artifact-store try-block.

Instruction statuses are written (to "done") but never read after the
initial `pending` filter, so the order between the in-coroutine mutation
`instruction.status = "done"` and the result-loop's own marking is
irrelevant; both are applied per result below.  Instruction ids and topics
are never mutated, so the result loop can be computed from the pre-filter
snapshot of each pending instruction plus its index in
`state.scout_instructions` (positions model Python object identity). -/

/-- One DuckDuckGo search result as `web_search` returns it. -/
structure SearchResult where
  title : String
  link : String
  snippet : String
deriving DecidableEq

/-- Outcome of one scout coroutine's external interactions. -/
inductive TaskOutcome where
  | crashed
  | ran (search : Except String (List SearchResult)) (store : Except String String)

/-- The `combined_content` computed by `scout_instruction_async`: the error
fallback on a search exception, the explicit no-results placeholder on an
empty result list, and the joined rendering otherwise. -/
def combinedContent (topic : String) : Except String (List SearchResult) → String
  | Except.error e =>
      "Failed to perform web search for topic: " ++ topic ++ ". Error: " ++ e
  | Except.ok [] => "No search results found for topic: " ++ topic
  | Except.ok rs =>
      String.intercalate "\n\n" (rs.map (fun r =>
        "Title: " ++ r.title ++ "\nURL: " ++ r.link ++ "\nSnippet: " ++ r.snippet))

/-- Embeds `scout_instruction_async`.  `store` is the outcome of the
artifact-store try-block (`ok aid` gives the id created by
`create_artifact`; `error e` models any exception inside that block).  Both
branches mark the instruction done; the failure branch emits the placeholder
record with an empty `artifact_ref_id`. -/
def scout_instruction_async (inst : ScoutInstruction)
    (search : Except String (List SearchResult)) (store : Except String String) :
    ScoutInstruction × RawIntelligence × String :=
  let combined := combinedContent inst.topic search
  match store with
  | Except.ok aid =>
      ({ inst with status := "done" },
       { source_scout_id := inst.id
         content_summary := generate_summary combined 500
         artifact_ref_id := aid },
       aid)
  | Except.error e =>
      ({ inst with status := "done" },
       { source_scout_id := inst.id
         content_summary :=
           "Failed to process content for topic: " ++ inst.topic ++ ". Error: " ++ e
         artifact_ref_id := "" },
       "")

/-- Sets an instruction's status to "done". -/
def markDone (inst : ScoutInstruction) : ScoutInstruction :=
  { inst with status := "done" }

/-- Marks the instruction at a given position done (models the in-place
mutation of one instruction object). -/
def setDoneAt : List ScoutInstruction → Nat → List ScoutInstruction
  | [], _ => []
  | inst :: rest, 0 => markDone inst :: rest
  | inst :: rest, n + 1 => inst :: setDoneAt rest n

/-- Embeds the result loop's `for inst in state.scout_instructions: if
inst.id == instruction.id: inst.status = "done"; break`. -/
def markFirstDone : List ScoutInstruction → String → List ScoutInstruction
  | [], _ => []
  | inst :: rest, sid =>
    if inst.id = sid then markDone inst :: rest
    else inst :: markFirstDone rest sid

/-- The pending instructions paired with their positions in
`state.scout_instructions` (Python's `pending_instructions` list of aliased
objects). -/
def pendingPairsAux : Nat → List ScoutInstruction → List (Nat × ScoutInstruction)
  | _, [] => []
  | i, inst :: rest =>
    if inst.status = "pending" then (i, inst) :: pendingPairsAux (i + 1) rest
    else pendingPairsAux (i + 1) rest

/-- Positions and snapshots of the pending instructions. -/
def pendingPairs (l : List ScoutInstruction) : List (Nat × ScoutInstruction) :=
  pendingPairsAux 0 l

/-- The one `raw_intelligence` record the result loop appends for a task:
the crash fallback for an escaped exception, otherwise the record built by
`scout_instruction_async`. -/
def taskRecord (inst : ScoutInstruction) : TaskOutcome → RawIntelligence
  | TaskOutcome.crashed =>
      { source_scout_id := inst.id
        content_summary := "Failed to execute scout task for topic: " ++ inst.topic
        artifact_ref_id := "" }
  | TaskOutcome.ran search store => (scout_instruction_async inst search store).2.1

/-- The status marking a task performs: a crashed task is marked done
positionally by the result loop; a completed task is marked done in the
coroutine (positionally, on the same object) and again by id in the result
loop. -/
def applyTaskMark (insts : List ScoutInstruction)
    (task : (Nat × ScoutInstruction) × TaskOutcome) : List ScoutInstruction :=
  match task with
  | ((i, _), TaskOutcome.crashed) => setDoneAt insts i
  | ((i, inst), TaskOutcome.ran _ _) => markFirstDone (setDoneAt insts i) inst.id

/-- Embeds `scout_node`: filter the pending instructions, run one task per
pending instruction (`outcomes` holds the per-task external outcomes, in
submission order, one per task as `asyncio.gather` guarantees), then apply
each task's status marking and append each task's record in order. -/
def scout_node (s : GlobalState) (outcomes : List TaskOutcome) : GlobalState :=
  let tasks := (pendingPairs s.scout_instructions).zip outcomes
  { s with
    scout_instructions := tasks.foldl applyTaskMark s.scout_instructions
    raw_intelligence :=
      s.raw_intelligence ++ tasks.map (fun t => taskRecord t.1.2 t.2) }

/-! ## nodes/io.py — intelligence fusion -/

/-- The per-record block `intelligence_fusion` renders, or `none` when the
artifact lookup misses: the code's `if artifact:` guard appends nothing for
an unresolved `artifact_ref_id`. -/
def fusionEntry (store : Collection) (ri : RawIntelligence) : Option String :=
  match retrieve_artifact store ri.artifact_ref_id with
  | some a =>
      some ("Source Scout ID: " ++ ri.source_scout_id ++ "\n" ++
            "Content Summary: " ++ ri.content_summary ++ "\n" ++
            "Full Content: " ++ a.document ++ "\n" ++
            "---\n")
  | none => none

/-- The `intelligence_contents` list built by the fusion loop. -/
def fusionContents (raw : List RawIntelligence) (store : Collection) : List String :=
  raw.filterMap (fusionEntry store)

/-- The `technical_correction_content` block: empty unless the optional
correction is present and non-empty (Python truthiness of `None` and `""`). -/
def techCorrectionContent : Option String → String
  | none => ""
  | some t =>
    if t = "" then ""
    else "Technical Correction (High Priority):\n" ++ t ++ "\n---\n"

/-- The fusion prompt assembled from the rendered contents and the
technical-correction block (the f-string of `intelligence_fusion`). -/
def fusionPrompt (contents : List String) (tcc : String) : String :=
  "You are the Intelligence Officer (IO).\n" ++
  "Raw Intelligence Reports: \n" ++
  String.join contents ++ "\n\n" ++
  tcc ++ "\n" ++
  "Task: Consolidate the raw intelligence into a single coherent briefing.\n\n" ++
  "Instructions:\n" ++
  "1. Merge and deduplicate information from multiple sources\n" ++
  "2. If Technical Correction exists, OVERRIDE conflicting claims\n" ++
  "3. Mark conflicting sources with [⚠️ CONFLICT]\n" ++
  "4. Generate a Consolidated Intelligence Briefing (Markdown)\n\n" ++
  "Requirements:\n" ++
  "- Every fact must cite [Source: artifact_id]\n" ++
  "- If data is missing, state \"Data Missing: \x7btopic\x7d\"\n" ++
  "- Use clear section headings\n" ++
  "- Focus on facts, not opinions\n\n" ++
  "Output ONLY the consolidated briefing in Markdown format."

/-- Embeds `intelligence_fusion`.  `llm` is the external model.  Each
`raw_intelligence` record is resolved against the artifact store; the
resulting briefing fully replaces `consolidated_briefing` and the status
becomes `drafting`. -/
def intelligence_fusion (s : GlobalState) (store : Collection)
    (llm : String → String) : GlobalState :=
  let contents := fusionContents s.raw_intelligence store
  let tcc := techCorrectionContent s.technical_correction
  { s with
    consolidated_briefing := llm (fusionPrompt contents tcc)
    status := GlobalStateStatus.drafting }

/-! ## Verification predicates -/

/-- Relates an instruction list to one obtained from it by only flipping
statuses to "done": each position is unchanged or has its status set done. -/
def StatusStep (l l' : List ScoutInstruction) : Prop :=
  ∀ j : Nat, l'.get? j = l.get? j ∨ l'.get? j = (l.get? j).map markDone

/-- The instruction at position `j`, when present, has status "done". -/
def DoneAt (l : List ScoutInstruction) (j : Nat) : Prop :=
  ∀ inst, l.get? j = some inst → inst.status = "done"

/-! ## Concrete states used by witnesses and counterexamples -/

/-- The spec's end-to-end scenario intent, as a fresh request state. -/
def sampleState : GlobalState :=
  { initial_state "req-1" with
      user_intent := "Evaluate market entry for a SaaS analytics product in Southeast Asia" }

/-- A state that has consumed its three correction iterations. -/
def capState : GlobalState :=
  { sampleState with iteration_count := 3, status := GlobalStateStatus.auditing }

/-- A state about to be audited. -/
def sampleAuditState : GlobalState :=
  { sampleState with
      status := GlobalStateStatus.auditing
      strategy_draft := "# Strategy"
      consolidated_briefing := "# Briefing" }

/-- A state with two pending scout instructions. -/
def scoutStateW : GlobalState :=
  { sampleState with
      scout_instructions :=
        [{ id := "scout_1", role := "market", topic := "SaaS market size", status := "pending" },
         { id := "scout_2", role := "competitor", topic := "SaaS competitors", status := "pending" }] }

/-- Task outcomes in which every external search call fails. -/
def outcomesW : List TaskOutcome :=
  [TaskOutcome.ran (Except.error "search failed") (Except.ok "aid-1"),
   TaskOutcome.ran (Except.error "search failed") (Except.error "store failed")]

/-- A state whose only instruction is already done. -/
def doneStateW : GlobalState :=
  { sampleState with
      scout_instructions :=
        [{ id := "scout_1", role := "market", topic := "SaaS market size", status := "done" }] }

/-- A state with a single pending instruction. -/
def scoutStateC6 : GlobalState :=
  { sampleState with
      scout_instructions :=
        [{ id := "scout_1", role := "market", topic := "SaaS market", status := "pending" }] }

/-- A mixed state: one instruction already done, one still pending. -/
def mixedStateW : GlobalState :=
  { sampleState with
      scout_instructions :=
        [{ id := "scout_1", role := "market", topic := "T1", status := "done" },
         { id := "scout_2", role := "tech", topic := "T2", status := "pending" }] }

/-- The already-done instruction of `mixedStateW`. -/
def inst0W : ScoutInstruction :=
  { id := "scout_1", role := "market", topic := "T1", status := "done" }

/-- One outcome for the single pending instruction of `mixedStateW`. -/
def outcomesMixedW : List TaskOutcome :=
  [TaskOutcome.ran (Except.error "search down") (Except.ok "aid-7")]

/-- Outcomes exercising a crash and a successful search for the order claim. -/
def outcomesW10 : List TaskOutcome :=
  [TaskOutcome.crashed,
   TaskOutcome.ran (Except.ok [{ title := "T", link := "L", snippet := "S" }])
     (Except.ok "aid-9")]

/-- A well-formed LLM reply to the intent-analysis prompt (discarded by the
code). -/
def sampleIntentResponse : String :=
  "[\x7b\"id\": \"scout_1\", \"role\": \"market\", \"topic\": \"SaaS market size\", \"status\": \"pending\"\x7d]"

/-! ## Helper lemmas: status marking -/

theorem markDone_idem (inst : ScoutInstruction) : markDone (markDone inst) = markDone inst := rfl

theorem markDone_status (inst : ScoutInstruction) : (markDone inst).status = "done" := rfl

theorem markDone_eq_self {inst : ScoutInstruction} (h : inst.status = "done") :
    markDone inst = inst := by
  unfold markDone
  rw [← h]

theorem statusStep_refl (l : List ScoutInstruction) : StatusStep l l :=
  fun _ => Or.inl rfl

theorem statusStep_trans {a b c : List ScoutInstruction}
    (h1 : StatusStep a b) (h2 : StatusStep b c) : StatusStep a c := by
  intro j
  rcases h2 j with h | h <;> rcases h1 j with h' | h'
  · exact Or.inl (h.trans h')
  · exact Or.inr (h.trans h')
  · exact Or.inr (h.trans (congrArg (Option.map markDone) h'))
  · right
    rw [h, h']
    cases a.get? j <;> rfl

theorem setDoneAt_get : ∀ (l : List ScoutInstruction) (i j : Nat),
    (setDoneAt l i).get? j = if j = i then (l.get? j).map markDone else l.get? j := by
  intro l
  induction l with
  | nil =>
    intro i j
    simp [setDoneAt]
  | cons head rest ih =>
    intro i j
    cases i with
    | zero =>
      cases j with
      | zero => simp [setDoneAt]
      | succ j => simp [setDoneAt]
    | succ i =>
      cases j with
      | zero => simp [setDoneAt]
      | succ j => simpa [setDoneAt, Nat.succ_eq_add_one] using ih i j

theorem setDoneAt_statusStep (l : List ScoutInstruction) (i : Nat) :
    StatusStep l (setDoneAt l i) := by
  intro j
  rw [setDoneAt_get]
  split
  · exact Or.inr rfl
  · exact Or.inl rfl

theorem setDoneAt_doneAt (l : List ScoutInstruction) (i : Nat) :
    DoneAt (setDoneAt l i) i := by
  intro inst h
  rw [setDoneAt_get, if_pos rfl] at h
  rcases Option.map_eq_some'.mp h with ⟨v, _, hv⟩
  rw [← hv]
  rfl

theorem markFirstDone_statusStep : ∀ (l : List ScoutInstruction) (sid : String),
    StatusStep l (markFirstDone l sid) := by
  intro l
  induction l with
  | nil => intro sid j; exact Or.inl rfl
  | cons head rest ih =>
    intro sid j
    rw [markFirstDone]
    split
    · cases j with
      | zero => exact Or.inr rfl
      | succ j => exact Or.inl rfl
    · cases j with
      | zero => exact Or.inl rfl
      | succ j => exact ih sid j

theorem doneAt_of_statusStep {l l' : List ScoutInstruction} {j : Nat}
    (h : DoneAt l j) (hs : StatusStep l l') : DoneAt l' j := by
  intro inst hget
  rcases hs j with e | e
  · exact h inst (e ▸ hget)
  · rw [e] at hget
    rcases Option.map_eq_some'.mp hget with ⟨v, _, hv⟩
    rw [← hv]
    rfl

theorem applyTaskMark_statusStep (insts : List ScoutInstruction)
    (task : (Nat × ScoutInstruction) × TaskOutcome) :
    StatusStep insts (applyTaskMark insts task) := by
  rcases task with ⟨⟨i, inst⟩, o⟩
  cases o with
  | crashed => exact setDoneAt_statusStep insts i
  | ran search store =>
    exact statusStep_trans (setDoneAt_statusStep insts i)
      (markFirstDone_statusStep (setDoneAt insts i) inst.id)

theorem applyTaskMark_doneAt (insts : List ScoutInstruction)
    (task : (Nat × ScoutInstruction) × TaskOutcome) :
    DoneAt (applyTaskMark insts task) task.1.1 := by
  rcases task with ⟨⟨i, inst⟩, o⟩
  cases o with
  | crashed => exact setDoneAt_doneAt insts i
  | ran search store =>
    exact doneAt_of_statusStep (setDoneAt_doneAt insts i)
      (markFirstDone_statusStep (setDoneAt insts i) inst.id)

theorem foldl_applyTaskMark_statusStep :
    ∀ (tasks : List ((Nat × ScoutInstruction) × TaskOutcome)) (insts : List ScoutInstruction),
    StatusStep insts (tasks.foldl applyTaskMark insts) := by
  intro tasks
  induction tasks with
  | nil => intro insts; exact statusStep_refl insts
  | cons t rest ih =>
    intro insts
    exact statusStep_trans (applyTaskMark_statusStep insts t) (ih (applyTaskMark insts t))

theorem foldl_applyTaskMark_doneAt :
    ∀ (tasks : List ((Nat × ScoutInstruction) × TaskOutcome)) (insts : List ScoutInstruction)
      (t : (Nat × ScoutInstruction) × TaskOutcome), t ∈ tasks →
    DoneAt (tasks.foldl applyTaskMark insts) t.1.1 := by
  intro tasks
  induction tasks with
  | nil => intro insts t ht; cases ht
  | cons hd rest ih =>
    intro insts t ht
    rcases List.mem_cons.mp ht with rfl | hmem
    · exact doneAt_of_statusStep (applyTaskMark_doneAt insts t)
        (foldl_applyTaskMark_statusStep rest (applyTaskMark insts t))
    · exact ih (applyTaskMark insts hd) t hmem

/-! ## Helper lemmas: the pending filter -/

theorem pendingPairsAux_mem_of_get :
    ∀ (l : List ScoutInstruction) (n j : Nat) (inst : ScoutInstruction),
    l.get? j = some inst → inst.status = "pending" →
    (n + j, inst) ∈ pendingPairsAux n l := by
  intro l
  induction l with
  | nil => intro n j inst h; cases h
  | cons head rest ih =>
    intro n j inst h hp
    cases j with
    | zero =>
      rw [List.get?_cons_zero, Option.some_inj] at h
      subst h
      rw [pendingPairsAux, if_pos hp]
      exact List.mem_cons_self _ _
    | succ j =>
      rw [List.get?_cons_succ] at h
      have hmem := ih (n + 1) j inst h hp
      have harith : n + (j + 1) = n + 1 + j := by omega
      rw [pendingPairsAux]
      split
      · exact harith ▸ List.mem_cons_of_mem _ hmem
      · exact harith ▸ hmem

theorem pendingPairsAux_eq_nil :
    ∀ (l : List ScoutInstruction) (n : Nat),
    (∀ inst ∈ l, inst.status = "done") → pendingPairsAux n l = [] := by
  intro l
  induction l with
  | nil => intro n _; rfl
  | cons head rest ih =>
    intro n h
    rw [pendingPairsAux, if_neg]
    · exact ih (n + 1) (fun inst hm => h inst (List.mem_cons_of_mem _ hm))
    · rw [h head (List.mem_cons_self _ _)]
      decide

/-! ## Helper lemmas: gather covers every pending task -/

theorem mem_zip_of_get_lt {α β : Type} :
    ∀ (l1 : List α) (l2 : List β) (k : Nat) (a : α),
    l1.get? k = some a → k < l2.length → ∃ b, (a, b) ∈ l1.zip l2 := by
  intro l1
  induction l1 with
  | nil => intro l2 k a h; cases h
  | cons x xs ih =>
    intro l2 k a h hk
    cases l2 with
    | nil => cases hk
    | cons y ys =>
      cases k with
      | zero =>
        rw [List.get?_cons_zero, Option.some_inj] at h
        exact ⟨y, by rw [← h]; exact List.mem_cons_self _ _⟩
      | succ k =>
        rw [List.get?_cons_succ] at h
        have hk2 : k < ys.length := by simpa using hk
        obtain ⟨b, hb⟩ := ih ys k a h hk2
        exact ⟨b, List.mem_cons_of_mem _ hb⟩

/-! ## Helper lemmas: scout_node -/

theorem scout_node_raw_append (s : GlobalState) (outcomes : List TaskOutcome) :
    (scout_node s outcomes).raw_intelligence =
      s.raw_intelligence ++
        ((pendingPairs s.scout_instructions).zip outcomes).map
          (fun t => taskRecord t.1.2 t.2) := rfl

theorem scout_node_insts_eq (s : GlobalState) (outcomes : List TaskOutcome) :
    (scout_node s outcomes).scout_instructions =
      ((pendingPairs s.scout_instructions).zip outcomes).foldl
        applyTaskMark s.scout_instructions := rfl

theorem scout_node_raw_length (s : GlobalState) (outcomes : List TaskOutcome)
    (hlen : outcomes.length = (pendingPairs s.scout_instructions).length) :
    (scout_node s outcomes).raw_intelligence.length =
      s.raw_intelligence.length + (pendingPairs s.scout_instructions).length := by
  rw [scout_node_raw_append, List.length_append, List.length_map,
    List.length_zip, hlen, min_self]

theorem scout_node_no_pending (s : GlobalState) (outcomes : List TaskOutcome)
    (hlen : outcomes.length = (pendingPairs s.scout_instructions).length) :
    ∀ inst ∈ (scout_node s outcomes).scout_instructions, inst.status ≠ "pending" := by
  intro inst hmem hpend
  obtain ⟨j, hj⟩ := List.get?_of_mem hmem
  rw [scout_node_insts_eq] at hj
  have hstep := foldl_applyTaskMark_statusStep
    ((pendingPairs s.scout_instructions).zip outcomes) s.scout_instructions
  cases h0 : s.scout_instructions.get? j with
  | none =>
    rcases hstep j with e | e <;> rw [h0] at e <;> rw [e] at hj <;> cases hj
  | some orig =>
    by_cases horig : orig.status = "pending"
    · have hmemP := pendingPairsAux_mem_of_get s.scout_instructions 0 j orig h0 horig
      rw [Nat.zero_add] at hmemP
      obtain ⟨k, hk⟩ := List.get?_of_mem hmemP
      have hklt : k < outcomes.length := by
        rw [hlen]
        exact (List.get?_eq_some.mp hk).1
      obtain ⟨o, ho⟩ := mem_zip_of_get_lt (pendingPairs s.scout_instructions) outcomes
        k (j, orig) hk hklt
      have hdone := foldl_applyTaskMark_doneAt
        ((pendingPairs s.scout_instructions).zip outcomes) s.scout_instructions
        ((j, orig), o) ho
      have : inst.status = "done" := hdone inst hj
      rw [this] at hpend
      exact absurd hpend (by decide)
    · rcases hstep j with e | e <;> rw [h0] at e <;> rw [e] at hj
      · rw [Option.some_inj] at hj
        rw [hj] at horig
        exact horig hpend
      · rw [show Option.map markDone (some orig) = some (markDone orig) from rfl,
          Option.some_inj] at hj
        rw [← hj, markDone_status] at hpend
        exact absurd hpend (by decide)

theorem scout_node_no_pending_filter (s : GlobalState) (outcomes : List TaskOutcome)
    (hlen : outcomes.length = (pendingPairs s.scout_instructions).length) :
    (scout_node s outcomes).scout_instructions.filter
      (fun inst => inst.status == "pending") = [] := by
  rw [List.filter_eq_nil_iff]
  intro inst hmem
  simpa using scout_node_no_pending s outcomes hlen inst hmem

theorem scout_node_noop (s : GlobalState) (outcomes : List TaskOutcome)
    (h : ∀ inst ∈ s.scout_instructions, inst.status = "done") :
    scout_node s outcomes = s := by
  have hp : pendingPairs s.scout_instructions = [] :=
    pendingPairsAux_eq_nil s.scout_instructions 0 h
  rw [scout_node, hp]
  simp

theorem scout_node_done_untouched (s : GlobalState) (outcomes : List TaskOutcome)
    (j : Nat) (inst : ScoutInstruction)
    (hj : s.scout_instructions.get? j = some inst) (hdone : inst.status = "done") :
    (scout_node s outcomes).scout_instructions.get? j = some inst := by
  rw [scout_node_insts_eq]
  rcases foldl_applyTaskMark_statusStep ((pendingPairs s.scout_instructions).zip outcomes)
      s.scout_instructions j with e | e
  · rw [e, hj]
  · rw [e, hj]
    show some (markDone inst) = some inst
    rw [markDone_eq_self hdone]

theorem taskRecord_source (inst : ScoutInstruction) (o : TaskOutcome) :
    (taskRecord inst o).source_scout_id = inst.id := by
  cases o with
  | crashed => rfl
  | ran search store => cases store <;> rfl

theorem scout_node_order_ids (s : GlobalState) (outcomes : List TaskOutcome)
    (hlen : outcomes.length = (pendingPairs s.scout_instructions).length) :
    (((pendingPairs s.scout_instructions).zip outcomes).map
        (fun t => taskRecord t.1.2 t.2)).map (fun r => r.source_scout_id) =
      (pendingPairs s.scout_instructions).map (fun p => p.2.id) := by
  rw [List.map_map]
  have h1 : (((pendingPairs s.scout_instructions).zip outcomes).map
      ((fun r => r.source_scout_id) ∘ (fun t => taskRecord t.1.2 t.2))) =
      (((pendingPairs s.scout_instructions).zip outcomes).map
        ((fun p : Nat × ScoutInstruction => p.2.id) ∘ Prod.fst)) := by
    apply List.map_congr_left
    intro t _
    exact taskRecord_source t.1.2 t.2
  rw [h1, ← List.map_map, List.map_fst_zip _ _ (le_of_eq hlen.symm)]

/-! ## Helper lemmas: artifact store and fusion -/

theorem store_fresh_not_found (col : Collection) (aid content : String)
    (splitter : String → List String)
    (hfresh : ∀ c ∈ col, c.id ≠ aid) :
    retrieve_artifact (store_artifact col aid content splitter) aid = none := by
  have hnil : collection_get (store_artifact col aid content splitter) aid = [] := by
    rw [collection_get, List.filter_eq_nil_iff]
    intro c hc
    simp only [store_artifact, List.mem_append] at hc
    rcases hc with hc | hc
    · simpa using hfresh c hc
    · obtain ⟨p, _, hp⟩ := List.mem_map.mp hc
      have hid : c.id = aid ++ "_chunk_" ++ toString p.1 := by rw [← hp]
      simp only [beq_iff_eq]
      intro h
      rw [hid] at h
      have hl := congrArg String.length h
      rw [String.length_append, String.length_append] at hl
      have h7 : ("_chunk_" : String).length = 7 := rfl
      rw [h7] at hl
      omega
  rw [retrieve_artifact, hnil]

theorem filterMap_length_eq_filter_isSome {α β : Type} (f : α → Option β) :
    ∀ (l : List α), (l.filterMap f).length = (l.filter (fun a => (f a).isSome)).length := by
  intro l
  induction l with
  | nil => rfl
  | cons x xs ih =>
    rw [List.filterMap_cons, List.filter_cons]
    cases h : f x with
    | none => simpa [h] using ih
    | some b => simpa [h] using ih

theorem fusionEntry_isSome (store : Collection) (ri : RawIntelligence) :
    (fusionEntry store ri).isSome = (retrieve_artifact store ri.artifact_ref_id).isSome := by
  unfold fusionEntry
  cases retrieve_artifact store ri.artifact_ref_id <;> rfl

theorem technical_review_at_cap (s : GlobalState) (gen : String)
    (h : 3 ≤ s.iteration_count) :
    technical_review s gen =
      ({ s with technical_correction := some max_iter_msg
                status := GlobalStateStatus.awaiting_user }, false) := by
  unfold technical_review
  rw [if_pos h]

theorem technical_review_below_cap (s : GlobalState) (gen : String)
    (h : s.iteration_count < 3) :
    technical_review s gen =
      ({ s with technical_correction := some gen
                status := GlobalStateStatus.refining
                iteration_count := s.iteration_count + 1 }, true) := by
  unfold technical_review
  rw [if_neg (by omega)]

/-! ## Claim theorems -/

/-- Claim C1 (code bug evidence): the artifact store does NOT round-trip.
`create_artifact` stores every chunk under the id `aid ++ "_chunk_" ++ i`,
but `retrieve_artifact` looks up the bare `aid`, so the artifact just
created is reported not-found.  Evaluated here on a fresh store at a
concrete content. -/
theorem artifact_create_get_round_trip_fails :
    (create_artifact [] "a1" "hello world" (fun c => [c])).1 = "a1"
    ∧ retrieve_artifact (create_artifact [] "a1" "hello world" (fun c => [c])).2 "a1"
        = none := by
  constructor
  · rfl
  · decide

/-- Claim C2 (counterexample): a malformed audit report — here the empty
string, which is not a successfully parsed report with verdict pass — makes
the simple audit path mark the workflow `completed`, because the report
lacks the "Status: Reject"/"Status: Conditional" substrings. -/
theorem audit_malformed_output_completes :
    (adversarial_audit sampleAuditState "").status = GlobalStateStatus.completed := by
  decide

/-- Claim C2 (amended): in the advanced audit path a JSON parse failure is
handled conservatively: the status becomes `awaiting_user` and never
`completed`. -/
theorem advanced_audit_parse_failure_awaits_user (s : GlobalState) (rawOut : String)
    (serialize : StructuredAuditReport → String) :
    (advanced_adversarial_audit s rawOut none serialize).status
        = GlobalStateStatus.awaiting_user
    ∧ (advanced_adversarial_audit s rawOut none serialize).status
        ≠ GlobalStateStatus.completed :=
  ⟨rfl, fun h => GlobalStateStatus.noConfusion h⟩

/-- Claim C3: at the cap (`iteration_count ≥ 3`) the Correction Engine does
not invoke generation, emits the standard max-iterations message, sets
`awaiting_user` and leaves the counter unchanged; below the cap it stores
the generated correction, sets `refining` and increments the counter by
exactly one. -/
theorem technical_review_cap_behavior (s : GlobalState) (gen : String) :
    (3 ≤ s.iteration_count →
      (technical_review s gen).2 = false
      ∧ (technical_review s gen).1.technical_correction = some max_iter_msg
      ∧ (technical_review s gen).1.status = GlobalStateStatus.awaiting_user
      ∧ (technical_review s gen).1.iteration_count = s.iteration_count)
    ∧ (s.iteration_count < 3 →
      (technical_review s gen).2 = true
      ∧ (technical_review s gen).1.technical_correction = some gen
      ∧ (technical_review s gen).1.status = GlobalStateStatus.refining
      ∧ (technical_review s gen).1.iteration_count = s.iteration_count + 1) := by
  constructor
  · intro h
    rw [technical_review_at_cap s gen h]
    exact ⟨rfl, rfl, rfl, rfl⟩
  · intro h
    rw [technical_review_below_cap s gen h]
    exact ⟨rfl, rfl, rfl, rfl⟩

/-- Claim C3 witness: both branches evaluated at concrete states. -/
theorem technical_review_cap_behavior_witness :
    3 ≤ capState.iteration_count ∧ sampleState.iteration_count < 3
    ∧ ((technical_review capState "corrected text").2 = false
       ∧ (technical_review capState "corrected text").1.technical_correction = some max_iter_msg
       ∧ (technical_review capState "corrected text").1.status = GlobalStateStatus.awaiting_user
       ∧ (technical_review capState "corrected text").1.iteration_count = capState.iteration_count)
    ∧ ((technical_review sampleState "corrected text").2 = true
       ∧ (technical_review sampleState "corrected text").1.technical_correction = some "corrected text"
       ∧ (technical_review sampleState "corrected text").1.status = GlobalStateStatus.refining
       ∧ (technical_review sampleState "corrected text").1.iteration_count
           = sampleState.iteration_count + 1) :=
  ⟨by decide, by decide,
   (technical_review_cap_behavior capState "corrected text").1 (by decide),
   (technical_review_cap_behavior sampleState "corrected text").2 (by decide)⟩

/-- Claim C4 (counterexample): `StateManager.add_user_feedback` increments
`iteration_count` without any technical correction being applied, and pushes
it from 3 to 4, beyond the cap. -/
theorem user_feedback_exceeds_iteration_cap :
    (add_user_feedback capState "strategic" "please fix the projections" 0).iteration_count = 4
    ∧ 3 < (add_user_feedback capState "strategic" "please fix the projections" 0).iteration_count
    ∧ (add_user_feedback capState "strategic" "please fix the projections" 0).technical_correction
        = capState.technical_correction :=
  ⟨rfl, by decide, rfl⟩

/-- Claim C4 (amended): within the correction loop the counter is monotone,
`technical_review` keeps it at or below the cap 3, and `technical_router`
exits the loop once the cap is reached regardless of the audit verdict;
`add_user_feedback`, however, increments the counter unconditionally. -/
theorem iteration_cap_within_loop (s : GlobalState) (gen ftype content : String)
    (ts : Nat) :
    s.iteration_count ≤ (technical_review s gen).1.iteration_count
    ∧ (s.iteration_count ≤ 3 → (technical_review s gen).1.iteration_count ≤ 3)
    ∧ (3 ≤ s.iteration_count → technical_router s = "END")
    ∧ (add_user_feedback s ftype content ts).iteration_count = s.iteration_count + 1 := by
  refine ⟨?_, ?_, ?_, rfl⟩
  · by_cases h : 3 ≤ s.iteration_count
    · rw [technical_review_at_cap s gen h]
    · rw [technical_review_below_cap s gen (by omega)]
      exact Nat.le_succ _
  · intro h3
    by_cases h : 3 ≤ s.iteration_count
    · rw [technical_review_at_cap s gen h]
      exact h3
    · rw [technical_review_below_cap s gen (by omega)]
      show s.iteration_count + 1 ≤ 3
      omega
  · intro h
    unfold technical_router
    rw [if_pos h]

/-- Claim C4 witness: the loop-side conclusions evaluated at the cap
state. -/
theorem iteration_cap_within_loop_witness :
    capState.iteration_count ≤ 3 ∧ 3 ≤ capState.iteration_count
    ∧ (technical_review capState "g").1.iteration_count ≤ 3
    ∧ technical_router capState = "END" :=
  ⟨by decide, by decide,
   (iteration_cap_within_loop capState "g" "strategic" "c" 0).2.1 (by decide),
   (iteration_cap_within_loop capState "g" "strategic" "c" 0).2.2.1 (by decide)⟩

/-- Claim C5: one dispatcher run over N pending instructions appends exactly
N `raw_intelligence` records and leaves zero instructions pending, whatever
the external outcomes (in particular when every search call fails). -/
theorem dispatcher_processes_all_pending (s : GlobalState) (outcomes : List TaskOutcome)
    (hlen : outcomes.length = (pendingPairs s.scout_instructions).length) :
    (scout_node s outcomes).raw_intelligence.length
        = s.raw_intelligence.length + (pendingPairs s.scout_instructions).length
    ∧ (scout_node s outcomes).scout_instructions.filter
        (fun inst => inst.status == "pending") = [] :=
  ⟨scout_node_raw_length s outcomes hlen, scout_node_no_pending_filter s outcomes hlen⟩

/-- Claim C5 witness: a two-instruction batch in which every search call
fails (and one store also fails) still yields two records and no pending
instruction. -/
theorem dispatcher_processes_all_pending_witness :
    outcomesW.length = (pendingPairs scoutStateW.scout_instructions).length
    ∧ ((scout_node scoutStateW outcomesW).raw_intelligence.length
        = scoutStateW.raw_intelligence.length
          + (pendingPairs scoutStateW.scout_instructions).length
      ∧ (scout_node scoutStateW outcomesW).scout_instructions.filter
          (fun inst => inst.status == "pending") = []) :=
  ⟨by decide, dispatcher_processes_all_pending scoutStateW outcomesW (by decide)⟩

/-- Claim C6 (counterexample): a search error with a successful artifact
store does NOT produce the claimed empty `artifact_ref_id`: the error text
is stored as an artifact and the record references it. -/
theorem search_error_record_not_placeholder :
    (scout_node scoutStateC6
        [TaskOutcome.ran (Except.error "network unreachable") (Except.ok "aid-1")]).raw_intelligence
      = [{ source_scout_id := "scout_1"
           content_summary :=
             "Failed to perform web search for topic: SaaS market. Error: network unreachable"
           artifact_ref_id := "aid-1" }]
    ∧ "aid-1" ≠ "" := by
  constructor
  · decide
  · decide

/-- Claim C6 (amended): a store error or a crashed task marks the
instruction done and emits a placeholder record with empty
`artifact_ref_id` and an error summary; a search error whose store
succeeds also marks the instruction done but references the stored error
artifact (non-empty id); and the batch always emits one record per joined
task, so no single failure aborts it. -/
theorem dispatcher_failure_handling (inst : ScoutInstruction)
    (search : Except String (List SearchResult)) (err searchErr aid : String)
    (s : GlobalState) (outcomes : List TaskOutcome) :
    ((scout_instruction_async inst search (Except.error err)).2.1.artifact_ref_id = ""
      ∧ (scout_instruction_async inst search (Except.error err)).2.1.content_summary
          = "Failed to process content for topic: " ++ inst.topic ++ ". Error: " ++ err
      ∧ (scout_instruction_async inst search (Except.error err)).1.status = "done")
    ∧ ((taskRecord inst TaskOutcome.crashed).artifact_ref_id = ""
      ∧ (taskRecord inst TaskOutcome.crashed).content_summary
          = "Failed to execute scout task for topic: " ++ inst.topic)
    ∧ ((scout_instruction_async inst (Except.error searchErr) (Except.ok aid)).1.status = "done"
      ∧ (scout_instruction_async inst (Except.error searchErr) (Except.ok aid)).2.1.artifact_ref_id
          = aid)
    ∧ (scout_node s outcomes).raw_intelligence.length
        = s.raw_intelligence.length
          + min (pendingPairs s.scout_instructions).length outcomes.length := by
  refine ⟨⟨rfl, rfl, rfl⟩, ⟨rfl, rfl⟩, ⟨rfl, rfl⟩, ?_⟩
  rw [scout_node_raw_append, List.length_append, List.length_map, List.length_zip]

/-- Claim C7: the dispatcher is idempotent on completed work.  When every
instruction is already done the run is a no-op returning the state
unchanged; and in general a re-run leaves every already-done instruction
untouched (its position holds the very same value) while the appended
records are computed solely from the still-pending instructions. -/
theorem dispatcher_idempotent_on_done (s : GlobalState) (outcomes : List TaskOutcome) :
    ((∀ inst ∈ s.scout_instructions, inst.status = "done") → scout_node s outcomes = s)
    ∧ (∀ (j : Nat) (inst : ScoutInstruction),
        s.scout_instructions.get? j = some inst → inst.status = "done" →
        (scout_node s outcomes).scout_instructions.get? j = some inst)
    ∧ (scout_node s outcomes).raw_intelligence
        = s.raw_intelligence ++ ((pendingPairs s.scout_instructions).zip outcomes).map
            (fun t => taskRecord t.1.2 t.2) := by
  refine ⟨?_, ?_, scout_node_raw_append s outcomes⟩
  · intro h
    have hp : pendingPairs s.scout_instructions = [] :=
      pendingPairsAux_eq_nil s.scout_instructions 0 h
    rw [scout_node, hp]
    simp
  · intro j inst hj hdone
    exact scout_node_done_untouched s outcomes j inst hj hdone

/-- Claim C7 witness: the all-done singleton state is returned unchanged,
and on a mixed state (one done, one pending) the done instruction's
position is untouched while the appended records come from the pending
instruction alone. -/
theorem dispatcher_idempotent_on_done_witness :
    doneStateW.scout_instructions.all (fun inst => inst.status == "done") = true
    ∧ scout_node doneStateW [TaskOutcome.crashed] = doneStateW
    ∧ mixedStateW.scout_instructions.get? 0 = some inst0W
    ∧ inst0W.status = "done"
    ∧ (scout_node mixedStateW outcomesMixedW).scout_instructions.get? 0 = some inst0W
    ∧ (scout_node mixedStateW outcomesMixedW).raw_intelligence
        = mixedStateW.raw_intelligence
          ++ ((pendingPairs mixedStateW.scout_instructions).zip outcomesMixedW).map
              (fun t => taskRecord t.1.2 t.2) :=
  ⟨by decide,
   (dispatcher_idempotent_on_done doneStateW [TaskOutcome.crashed]).1 (by decide),
   by decide,
   by decide,
   (dispatcher_idempotent_on_done mixedStateW outcomesMixedW).2.1 0 inst0W
     (by decide) (by decide),
   (dispatcher_idempotent_on_done mixedStateW outcomesMixedW).2.2⟩

/-- Claim C8 (counterexample): a record whose `artifact_ref_id` does not
resolve is silently omitted from the fusion input — the rendered contents
list is empty, with no "content unavailable" marker. -/
theorem fusion_omits_unresolved_record :
    fusionContents
        [{ source_scout_id := "scout_1", content_summary := "summary", artifact_ref_id := "" }]
        [] = [] := by
  decide

/-- Claim C8 (amended): fusion always overwrites `consolidated_briefing`
with the generated output and sets `status = drafting`, but its input
renders exactly the records whose artifact reference resolves — unresolved
records are skipped, not marked. -/
theorem fusion_skips_unresolved_and_overwrites (s : GlobalState) (store : Collection)
    (llm : String → String) :
    (intelligence_fusion s store llm).status = GlobalStateStatus.drafting
    ∧ (intelligence_fusion s store llm).consolidated_briefing
        = llm (fusionPrompt (fusionContents s.raw_intelligence store)
            (techCorrectionContent s.technical_correction))
    ∧ (fusionContents s.raw_intelligence store).length
        = (s.raw_intelligence.filter
            (fun ri => (retrieve_artifact store ri.artifact_ref_id).isSome)).length := by
  refine ⟨rfl, rfl, ?_⟩
  rw [fusionContents, filterMap_length_eq_filter_isSome]
  congr 1
  apply List.filter_congr
  intro ri _
  exact fusionEntry_isSome store ri

/-- Claim C9 (code bug evidence): intent analysis discards the LLM output
and never writes `scout_instructions`: on the spec's end-to-end intent it
populates zero instructions, not 3–5. -/
theorem intent_analysis_populates_no_instructions :
    (intent_analysis sampleState sampleIntentResponse).scout_instructions = []
    ∧ ¬ 3 ≤ (intent_analysis sampleState sampleIntentResponse).scout_instructions.length :=
  ⟨rfl, by decide⟩

/-- Claim C10: the dispatcher appends the new records in exactly the
submission order of the pending instructions — the appended records'
`source_scout_id` sequence equals the pending instructions' id sequence, so
the output order is deterministic for a given pending set and outcome
list. -/
theorem dispatcher_append_order (s : GlobalState) (outcomes : List TaskOutcome)
    (hlen : outcomes.length = (pendingPairs s.scout_instructions).length) :
    (scout_node s outcomes).raw_intelligence
      = s.raw_intelligence ++ ((pendingPairs s.scout_instructions).zip outcomes).map
          (fun t => taskRecord t.1.2 t.2)
    ∧ (((pendingPairs s.scout_instructions).zip outcomes).map
          (fun t => taskRecord t.1.2 t.2)).map (fun r => r.source_scout_id)
        = (pendingPairs s.scout_instructions).map (fun p => p.2.id) :=
  ⟨scout_node_raw_append s outcomes, scout_node_order_ids s outcomes hlen⟩

/-- Claim C10 witness: a crashed first task and a successful second task
still produce records in submission order. -/
theorem dispatcher_append_order_witness :
    outcomesW10.length = (pendingPairs scoutStateW.scout_instructions).length
    ∧ ((scout_node scoutStateW outcomesW10).raw_intelligence
        = scoutStateW.raw_intelligence
          ++ ((pendingPairs scoutStateW.scout_instructions).zip outcomesW10).map
              (fun t => taskRecord t.1.2 t.2)
      ∧ (((pendingPairs scoutStateW.scout_instructions).zip outcomesW10).map
            (fun t => taskRecord t.1.2 t.2)).map (fun r => r.source_scout_id)
          = (pendingPairs scoutStateW.scout_instructions).map (fun p => p.2.id)) :=
  ⟨by decide, dispatcher_append_order scoutStateW outcomesW10 (by decide)⟩
